import Mathlib

/-!
Verification development for the ETL pipeline repository
(`Part_3_and_4/data_quality_checks_and_batch_loading.py`, with
`Part_1/data_pipeline.py` as secondary source).

The Python source is shallowly embedded: pandas column operations become
per-row maps over Lean lists (a columnwise assignment touches every row
independently, except where a global condition such as a defect count or a
column-existence test guards it — those guards are modelled explicitly).
Missing/NaN cells become `Option.none`; JSON numbers are modelled as `ℚ`
(the numeric comparisons in the source are exact at every value the claims
touch); a Python exception escaping a function is `Except.error`.

Scalar fields that are absent from a JSON record and fields that are JSON
null both surface as null cells after `pd.json_normalize`, so both are
modelled as `none` — except for the nested `product` field, where the
column layout produced by `json_normalize` depends on whether the key is
absent, null, or a mapping; that three-way distinction is modelled by
`ProductField`.  Product mappings are modelled as carrying all four keys
(`id`, `name`, `category`, `price`), with possibly-null values, matching
the shape of the repository's data.
-/

namespace ETL

/-! ### Python string helpers for `DataTransformer.standardize_date` -/

/-- Python regex `\s` character class (whitespace). -/
def pyWs (c : Char) : Bool :=
  c = ' ' || c = '\t' || c = '\n' || c = '\r' || c = '\x0b' || c = '\x0c'

/-- Python `str.strip()`: remove leading and trailing whitespace. -/
def pyStrip (s : String) : String :=
  String.mk (((s.toList.dropWhile pyWs).reverse.dropWhile pyWs).reverse)

/-- Worker for `fixSplitYear`, structurally recursive on a fuel argument
so that it evaluates by kernel reduction; every recursive call shortens
the scanned list by at least one character, so fuel equal to the list
length never runs out. -/
def fixSplitYearAux : Nat → List Char → List Char
  | 0, l => l
  | _ + 1, [] => []
  | _ + 1, [c] => [c]
  | fuel + 1, c1 :: c2 :: rest =>
    if c1.isDigit && c2.isDigit && (rest.takeWhile pyWs ≠ []) then
      match rest.dropWhile pyWs with
      | d1 :: d2 :: sep :: rest2 =>
        if d1.isDigit && d2.isDigit && (sep = '-' || sep = '/' || pyWs sep) then
          c1 :: c2 :: d1 :: d2 :: sep :: fixSplitYearAux fuel rest2
        else
          c1 :: fixSplitYearAux fuel (c2 :: rest)
      | _ => c1 :: fixSplitYearAux fuel (c2 :: rest)
    else
      c1 :: fixSplitYearAux fuel (c2 :: rest)

/-- The first corrective rewrite of `standardize_date` (a regex
substitution): scanning left to right, a match of two digits, a maximal
nonempty whitespace run, two more digits and one separator character
(hyphen, slash or whitespace) is rewritten with the whitespace run
deleted, and scanning resumes after the match; elsewhere the text is
copied unchanged. -/
def fixSplitYear (l : List Char) : List Char :=
  fixSplitYearAux l.length l

/-- The second corrective rewrite of `standardize_date`: every maximal
whitespace run becomes a single hyphen.  The boolean argument records
whether the previous character was part of a whitespace run already
replaced. -/
def collapseWs : Bool → List Char → List Char
  | _, [] => []
  | prevWs, c :: rest =>
    if pyWs c then
      if prevWs then collapseWs true rest
      else '-' :: collapseWs true rest
    else c :: collapseWs false rest

/-- Numeric value of a decimal digit character. -/
def digitVal (c : Char) : Nat := c.toNat - '0'.toNat

/-- Whether a string is a canonical `YYYY-MM-DD` date: ten characters,
digits in the date positions, hyphen separators, month in 1..12 and day in
1..31. -/
def isCanonicalDate (s : String) : Bool :=
  match s.toList with
  | [y1, y2, y3, y4, s1, m1, m2, s2, d1, d2] =>
    y1.isDigit && y2.isDigit && y3.isDigit && y4.isDigit &&
    s1 = '-' && s2 = '-' &&
    m1.isDigit && m2.isDigit && d1.isDigit && d2.isDigit &&
    (let m := 10 * digitVal m1 + digitVal m2
     let d := 10 * digitVal d1 + digitVal d2
     1 ≤ m && m ≤ 12 && 1 ≤ d && d ≤ 31)
  | _ => false

/-- Python exceptions that the embedded code can raise or catch. -/
inductive PyErr where
  | keyError
  | valueError
deriving DecidableEq, Repr

/-- Modelled from the spec: the tolerant, locale-agnostic date parse
(`dateutil.parser.parse(..., fuzzy=True, ignoretz=True)` followed by
`strftime("%Y-%m-%d")`) is an external library collaborator, modelled here
as succeeding exactly on strings already in canonical `YYYY-MM-DD` form
(returned unchanged) and failing with `ValueError` otherwise. -/
def dateParse (s : String) : Except PyErr String :=
  if isCanonicalDate s then .ok s else .error .valueError

/-- `DataTransformer.standardize_date`: null in, null out; otherwise strip,
try the tolerant parse, on failure apply the two regex rewrites and retry,
and on a second failure return null.  Both `except` clauses of the source
cover every error the modelled parser can produce, so the embedding is a
total function into `Option`. -/
def standardize_date (dateStr : Option String) : Option String :=
  match dateStr with
  | none => none
  | some s0 =>
    let s := pyStrip s0
    match dateParse s with
    | .ok d => some d
    | .error _ =>
      let s2 := String.mk (collapseWs false (fixSplitYear s.toList))
      match dateParse s2 with
      | .ok d => some d
      | .error _ => none

/-! ### Data model -/

/-- The nested `product` mapping of a raw record, all four keys present
with possibly-null values. -/
structure RawProduct where
  id : Option String
  name : Option String
  category : Option String
  price : Option ℚ
deriving DecidableEq, Repr

/-- The `product` field of a raw JSON record: the key may be absent
entirely, present with value null, or present as a mapping.
`pd.json_normalize` produces different column layouts in the three
cases, which is why the distinction is kept. -/
inductive ProductField where
  | absent
  | null
  | dict (p : RawProduct)
deriving DecidableEq, Repr

/-- One raw input record (an element of the input JSON array). -/
structure RawRecord where
  transaction_id : Option String
  customer_id : Option String
  product : ProductField
  quantity : Option ℚ
  date : Option String
  region : Option String
deriving DecidableEq, Repr

/-- One row of the working DataFrame after `DataTransformer._initial_prep`
(and, with the flag columns filled in, after the quality checks). -/
structure Row where
  transaction_id : Option String
  customer_id : Option String
  product_id : Option String
  product_name : Option String
  category : Option String
  price : Option ℚ
  quantity : Option ℚ
  date : Option String
  date_std : Option String
  region : Option String
  total_value : Option ℚ
  has_missing_customer : Bool
  had_negative_quantity : Bool
  had_date_format_issue : Bool
  has_suspicious_values : Bool
deriving DecidableEq, Repr

/-! ### `DataTransformer._initial_prep` -/

/-- The four flattened product cells of one record: a mapping contributes
its values; an absent or null `product` leaves all four cells null. -/
def productFields (r : RawRecord) : Option String × Option String × Option String × Option ℚ :=
  match r.product with
  | .dict p => (p.id, p.name, p.category, p.price)
  | _ => (none, none, none, none)

/-- Whether some record carries the `product` key at all (as a mapping or
as null).  When no record does, `json_normalize` creates neither the
`product.id` columns nor a `product` column, and
`df['product']` in the manual-flattening branch raises `KeyError`. -/
def hasProductKey (data : List RawRecord) : Bool :=
  data.any fun r => match r.product with | .absent => false | _ => true

/-- The row built for one record by `_initial_prep`: product flattening,
`customer_id` filled with `'GUEST'` where null, `date_std` from
`standardize_date`, `price` numeric (the embedding's raw prices are
already numeric-or-null, on which `pd.to_numeric(errors='coerce')` is the
identity), `total_value = quantity * price` (null when either operand is
null), and `had_date_format_issue` seeded as `date != date_std`.  The
three remaining flag columns do not exist yet; they are created (as
`False`) at the start of `perform_checks`, so they are seeded `false`
here. -/
def prepRow (r : RawRecord) : Row :=
  let pf := productFields r
  let dstd := standardize_date r.date
  { transaction_id := r.transaction_id
    customer_id := some (r.customer_id.getD "GUEST")
    product_id := pf.1
    product_name := pf.2.1
    category := pf.2.2.1
    price := pf.2.2.2
    quantity := r.quantity
    date := r.date
    date_std := dstd
    region := r.region
    total_value :=
      match r.quantity, pf.2.2.2 with
      | some q, some p => some (q * p)
      | _, _ => none
    has_missing_customer := false
    had_negative_quantity := false
    had_date_format_issue := decide (r.date ≠ dstd)
    has_suspicious_values := false }

/-- `DataTransformer._initial_prep`: flatten the product structure (via the
rename branch when `product.id` columns exist, via the manual branch when a
scalar `product` column exists; when every record lacks the key — in
particular for an empty batch — `df['product']` raises `KeyError`), then
the columnwise repairs and derivations of `prepRow`. -/
def initialPrep (data : List RawRecord) : Except PyErr (List Row) :=
  if hasProductKey data then .ok (data.map prepRow) else .error .keyError

/-! ### `DataQualityChecker` -/

/-- The three flag columns `perform_checks` creates and sets to `False`
before running the detectors (`had_date_format_issue` already exists,
seeded by `_initial_prep`, and is left alone here). -/
def initFlags (r : Row) : Row :=
  { r with
    has_missing_customer := false
    had_negative_quantity := false
    has_suspicious_values := false }

/-- Detector 1 mask: `df['customer_id'].isna()`. -/
def missingCustomerMask (r : Row) : Bool := r.customer_id.isNone

/-- The row rewrite of detector 1: overwrite the flag with the mask and
fill null `customer_id` cells with `'Unknown'`. -/
def mcUpdate (r : Row) : Row :=
  { r with
    has_missing_customer := missingCustomerMask r
    customer_id := some (r.customer_id.getD "Unknown") }

/-- `DataQualityChecker._check_missing_customer`: when the count is
positive, the flag column is overwritten with the mask and null
`customer_id` cells are filled with `'Unknown'`. -/
def checkMissingCustomer (rows : List Row) : List Row × Nat :=
  let count := rows.countP missingCustomerMask
  if 0 < count then (rows.map mcUpdate, count) else (rows, count)

/-- Detector 2 mask: `df['quantity'] < 0` (null compares false). -/
def negativeQuantityMask (r : Row) : Bool :=
  match r.quantity with
  | some q => decide (q < 0)
  | none => false

/-- The row rewrite of detector 2: overwrite the flag with the mask and
replace `quantity` by its absolute value (null stays null). -/
def nqUpdate (r : Row) : Row :=
  { r with
    had_negative_quantity := negativeQuantityMask r
    quantity := r.quantity.map (|·|) }

/-- `DataQualityChecker._check_negative_quantities`: when the count is
positive, the flag column is overwritten with the mask and the whole
`quantity` column is replaced by its absolute value.  `total_value`,
computed earlier from the signed quantity, is not recomputed. -/
def checkNegativeQuantities (rows : List Row) : List Row × Nat :=
  let count := rows.countP negativeQuantityMask
  if 0 < count then (rows.map nqUpdate, count) else (rows, count)

/-- `DataQualityChecker._check_duplicate_transactions`:
`df['transaction_id'].duplicated(keep=False).sum()` — the number of rows
whose `transaction_id` is shared with at least one other row (pandas
treats null cells as equal to each other here). -/
def countDuplicateTransactions (rows : List Row) : Nat :=
  rows.countP fun r =>
    1 < rows.countP fun r2 => decide (r2.transaction_id = r.transaction_id)

/-- `DataQualityChecker._check_missing_product_info`: rows where any of
`product_id`, `product_name`, `price` is null. -/
def countMissingProductInfo (rows : List Row) : Nat :=
  rows.countP fun r =>
    r.product_id.isNone || r.product_name.isNone || r.price.isNone

/-- `DataQualityChecker._check_invalid_prices`: rows where
`price <= 0` or `price` is null. -/
def countInvalidPrices (rows : List Row) : Nat :=
  rows.countP fun r =>
    (match r.price with | some p => decide (p ≤ 0) | none => false) || r.price.isNone

/-- Detector 6 mask: `df['date_std'].isna() & df['date'].notna()` — the
original date was present but parsing failed outright. -/
def dateIssueMask (r : Row) : Bool := r.date_std.isNone && r.date.isSome

/-- The row rewrite of detector 6: overwrite `had_date_format_issue` with
the mask. -/
def diUpdate (r : Row) : Row :=
  { r with had_date_format_issue := dateIssueMask r }

/-- `DataQualityChecker._check_date_issues`: when the count is positive,
the whole `had_date_format_issue` column is overwritten with the mask —
including rows whose seeded value was `True` but whose mask is `False`. -/
def checkDateIssues (rows : List Row) : List Row × Nat :=
  let count := rows.countP dateIssueMask
  if 0 < count then (rows.map diUpdate, count) else (rows, count)

/-- `DataQualityChecker._check_missing_transaction_ids`. -/
def countMissingTransactionIds (rows : List Row) : Nat :=
  rows.countP fun r => r.transaction_id.isNone

/-- Detector 8 mask:
`(quantity > 1000) | (price < 0.01) | (total_value > 100000)`
(null cells compare false). -/
def suspiciousMask (r : Row) : Bool :=
  (match r.quantity with | some q => decide (1000 < q) | none => false) ||
  (match r.price with | some p => decide (p < 1 / 100) | none => false) ||
  (match r.total_value with | some tv => decide (100000 < tv) | none => false)

/-- The row rewrite of detector 8: overwrite `has_suspicious_values` with
the mask. -/
def svUpdate (r : Row) : Row :=
  { r with has_suspicious_values := suspiciousMask r }

/-- `DataQualityChecker._check_suspicious_values`: when the count is
positive, the flag column is overwritten with the mask. -/
def checkSuspiciousValues (rows : List Row) : List Row × Nat :=
  let count := rows.countP suspiciousMask
  if 0 < count then (rows.map svUpdate, count) else (rows, count)

/-- The eight per-category defect counts aggregated by `perform_checks`. -/
structure Issues where
  missing_customer : Nat
  negative_quantities : Nat
  duplicate_transactions : Nat
  missing_product_info : Nat
  invalid_prices : Nat
  date_issues : Nat
  missing_transaction_ids : Nat
  suspicious_values : Nat
deriving DecidableEq, Repr

/-- `DataQualityChecker.perform_checks`: create the three flag columns,
then run the eight detectors in their fixed order.  Detectors 3, 4, 5 and
7 only produce counts; detectors 1, 2, 6 and 8 thread the (possibly
rewritten) rows through. -/
def performChecks (rows : List Row) : List Row × Issues :=
  let r0 := rows.map initFlags
  let p1 := checkMissingCustomer r0
  let p2 := checkNegativeQuantities p1.1
  let c3 := countDuplicateTransactions p2.1
  let c4 := countMissingProductInfo p2.1
  let c5 := countInvalidPrices p2.1
  let p6 := checkDateIssues p2.1
  let c7 := countMissingTransactionIds p6.1
  let p8 := checkSuspiciousValues p6.1
  (p8.1, ⟨p1.2, p2.2, c3, c4, c5, p6.2, c7, p8.2⟩)

/-- `DataTransformer.transform`: `_initial_prep` then
`DataQualityChecker.perform_checks` (a `KeyError` escaping `_initial_prep`
propagates). -/
def transform (data : List RawRecord) : Except PyErr (List Row) :=
  (initialPrep data).map fun df => (performChecks df).1

/-! ### `BatchDataLoader`: table projections -/

/-- `DataFrame.drop_duplicates()`: keep the first occurrence of each
value, preserving order (pandas treats null cells as equal to each other
when deduplicating). -/
def pdDropDuplicates [DecidableEq α] : List α → List α
  | [] => []
  | a :: l => a :: (pdDropDuplicates l).filter (· ≠ a)

/-- `BatchDataLoader._prepare_customers_df`:
`df[['customer_id']].dropna().drop_duplicates()` — the distinct non-null
customer ids in first-occurrence order. -/
def prepareCustomersDf (df : List Row) : List String :=
  pdDropDuplicates (df.filterMap Row.customer_id)

/-- `BatchDataLoader._prepare_products_df`: select the four product
columns, `drop_duplicates()`, then `dropna(subset=['product_id'])`. -/
def prepareProductsDf (df : List Row) :
    List (Option String × Option String × Option String × Option ℚ) :=
  (pdDropDuplicates
      (df.map fun r => (r.product_id, r.product_name, r.category, r.price))).filter
    fun t => t.1.isSome

/-- `pd.to_datetime(col, errors='coerce')` on the `date_std` column:
canonical date strings become dates (represented here by the canonical
string itself), anything unparsable becomes null.  The `date_std` values
produced upstream are already canonical-or-null, on which this is the
identity. -/
def toDatetime (s : Option String) : Option String :=
  s.bind fun v => if isCanonicalDate v then some v else none

/-- One row of the transactions projection. -/
structure TxnRow where
  transaction_id : Option String
  customer_id : Option String
  product_id : Option String
  quantity : Option ℚ
  date : Option String
  date_std : Option String
  region : Option String
  total_value : Option ℚ
  has_missing_customer : Bool
  had_negative_quantity : Bool
  had_date_format_issue : Bool
  has_suspicious_values : Bool
deriving DecidableEq, Repr

/-- The transaction-projection image of one working row. -/
def rowToTxn (r : Row) : TxnRow :=
  { transaction_id := r.transaction_id
    customer_id := r.customer_id
    product_id := r.product_id
    quantity := r.quantity
    date := r.date
    date_std := toDatetime r.date_std
    region := r.region
    total_value := r.total_value
    has_missing_customer := r.has_missing_customer
    had_negative_quantity := r.had_negative_quantity
    had_date_format_issue := r.had_date_format_issue
    has_suspicious_values := r.has_suspicious_values }

/-- `BatchDataLoader._prepare_transactions_df`: select the twelve
transaction columns for every row (no row is dropped) and coerce
`date_std` to a date. -/
def prepareTransactionsDf (df : List Row) : List TxnRow :=
  df.map rowToTxn

/-! ### `BatchDataLoader`: chunked writes

The storage collaborator (`DataFrame.to_sql` against the SQLAlchemy
engine) is abstracted as an oracle `ok : String → Nat → Bool` saying
whether the write of a given table's given chunk is acknowledged (`true`)
or raises (`false`); engine creation is a boolean `engineOk`. -/

/-- The consecutive slices of at most `bs` rows that
`for i in range(0, total_rows, batch_size): df.iloc[i:i+batch_size]`
iterates over (the source only runs this with a positive batch size). -/
def chunksOf : Nat → List α → List (List α)
  | _, [] => []
  | 0, _ :: _ => []
  | b + 1, x :: xs =>
    (x :: xs).take (b + 1) :: chunksOf (b + 1) ((x :: xs).drop (b + 1))
termination_by _ l => l.length
decreasing_by
  simp only [List.length_drop, List.length_cons]
  omega

/-- Issue the writes for the chunks of one table starting at chunk index
`i`: each acknowledged write is recorded and the next chunk attempted; the
first failing write raises, so nothing after it is attempted and the
recorded writes are exactly those before the failure. -/
def runChunks (ok : Nat → Bool) : Nat → List (List α) → List (Nat × List α) × Bool
  | _, [] => ([], true)
  | i, c :: cs =>
    if ok i then
      let rest := runChunks ok (i + 1) cs
      ((i, c) :: rest.1, rest.2)
    else ([], false)

/-- `BatchDataLoader._load_table_in_batches`: an empty projection is
skipped with no write at all; otherwise the chunks are written in
ascending index order.  Returns the acknowledged writes and whether the
whole table was written without an exception. -/
def loadTableInBatches (ok : Nat → Bool) (rows : List α) (bs : Nat) :
    List (Nat × List α) × Bool :=
  if rows.isEmpty then ([], true) else runChunks ok 0 (chunksOf bs rows)

/-- A write acknowledged by the storage collaborator: table name and chunk
index. -/
abbrev Write := String × Nat

/-- Tag one table's chunk writes with its table name. -/
def tagWrites (t : String) (ws : List (Nat × List α)) : List Write :=
  ws.map fun w => (t, w.1)

/-- The outcome of the batch-loading stage: the acknowledged writes in
order, and the boolean the stage returns. -/
structure LoadOutcome where
  writes : List Write
  success : Bool
deriving DecidableEq, Repr

/-- `BatchDataLoader.load_with_batch_processing`: create the engine,
prepare the three projections, and load them in the fixed order
customers, products, transactions.  An exception on any chunk aborts the
`try` block — later chunks of that table and all later tables are never
attempted — and the stage returns `False`; writes already acknowledged
stand. -/
def load_with_batch_processing (engineOk : Bool) (ok : String → Nat → Bool)
    (df : List Row) (bs : Nat) : LoadOutcome :=
  if engineOk then
    let pc := loadTableInBatches (ok "customers") (prepareCustomersDf df) bs
    if pc.2 then
      let pp := loadTableInBatches (ok "products") (prepareProductsDf df) bs
      if pp.2 then
        let pt := loadTableInBatches (ok "transactions") (prepareTransactionsDf df) bs
        ⟨tagWrites "customers" pc.1 ++ tagWrites "products" pp.1 ++
            tagWrites "transactions" pt.1, pt.2⟩
      else ⟨tagWrites "customers" pc.1 ++ tagWrites "products" pp.1, false⟩
    else ⟨tagWrites "customers" pc.1, false⟩
  else ⟨[], false⟩

/-- The full ordered write list the loader issues when every chunk write
is acknowledged: all customers chunks, then all products chunks, then all
transactions chunks, each indexed in ascending order. -/
def expectedWrites (df : List Row) (bs : Nat) : List Write :=
  ((List.range (chunksOf bs (prepareCustomersDf df)).length).map fun i => ("customers", i)) ++
  ((List.range (chunksOf bs (prepareProductsDf df)).length).map fun i => ("products", i)) ++
  ((List.range (chunksOf bs (prepareTransactionsDf df)).length).map fun i => ("transactions", i))

/-! ### `DataExtractor` and `ETLPipeline.run` -/

/-- What extraction finds at the input path: no file, a file whose
contents `json.load` rejects, or a valid JSON array of records. -/
inductive ExtractResult where
  | missing
  | malformed
  | valid (data : List RawRecord)
deriving DecidableEq, Repr

/-- `DataExtractor.from_json`: a missing file and a `json.load` failure
both return the empty list; a valid array is returned as is. -/
def from_json : ExtractResult → List RawRecord
  | .missing => []
  | .malformed => []
  | .valid data => data

/-- The observable outcome of one `ETLPipeline.run`: the returned boolean
and which of the transform and load stages were entered. -/
structure RunOutcome where
  result : Bool
  ranTransform : Bool
  ranLoad : Bool
deriving DecidableEq, Repr

/-- `ETLPipeline.run`: schema setup, then extraction (aborting on an
empty record list before the transform stage), then transform (a
`KeyError` escaping it propagates out of `run`), aborting on an empty
frame, then batch loading, aborting on load failure.  The post-load
analytics stage does not affect the returned boolean. -/
def etlRun (schemaOk : Bool) (file : ExtractResult) (engineOk : Bool)
    (ok : String → Nat → Bool) (bs : Nat) : Except PyErr RunOutcome :=
  if schemaOk then
    let data := from_json file
    if data.isEmpty then .ok ⟨false, false, false⟩
    else
      (transform data).map fun df =>
        if df.isEmpty then ⟨false, true, false⟩
        else
          let load := load_with_batch_processing engineOk ok df bs
          if load.success then ⟨true, true, true⟩ else ⟨false, true, true⟩
  else .ok ⟨false, false, false⟩

/-! ### Concrete inputs used by the claims -/

/-- The single-record end-to-end scenario input of the spec:
`transaction_id "T001"`, null `customer_id`, product
`P01 / Mouse / Accessories / 25.0`, `quantity -3`, `date "2023-01-05"`,
`region "North"`. -/
def scenarioRec : RawRecord :=
  { transaction_id := some "T001"
    customer_id := none
    product := .dict
      { id := some "P01"
        name := some "Mouse"
        category := some "Accessories"
        price := some 25 }
    quantity := some (-3)
    date := some "2023-01-05"
    region := some "North" }

/-- A record that lacks the `product` mapping entirely. -/
def noProductRec : RawRecord :=
  { scenarioRec with transaction_id := some "T002", product := .absent }

/-- A record whose date parses but whose string form changes in doing so
(a leading space), seeding `had_date_format_issue` true. -/
def dateChangedRec : RawRecord :=
  { scenarioRec with
    transaction_id := some "T003"
    customer_id := some "C1"
    quantity := some 1
    date := some " 2023-01-05" }

/-- A record whose date fails to parse outright. -/
def dateBrokenRec : RawRecord :=
  { scenarioRec with
    transaction_id := some "T004"
    customer_id := some "C2"
    quantity := some 1
    date := some "garbage" }

/-- Monotonicity of the three flag columns that only their own detector
writes: a step from row `a` to row `b` never resets any of them from true
to false. -/
def flagLe (a b : Row) : Prop :=
  (a.has_missing_customer = true → b.has_missing_customer = true) ∧
  (a.had_negative_quantity = true → b.had_negative_quantity = true) ∧
  (a.has_suspicious_values = true → b.has_suspicious_values = true)

/-- The chunking contract of `_load_table_in_batches` for one projection:
the chunks concatenate back to the projection, each chunk has at most
`bs` rows, and there are `ceil(n / bs)` of them (the source's
`(total_rows + batch_size - 1) // batch_size`). -/
def chunkSpec (bs : Nat) (l : List α) : Prop :=
  (chunksOf bs l).flatten = l ∧
  (∀ c ∈ chunksOf bs l, c.length ≤ bs) ∧
  (chunksOf bs l).length = (l.length + bs - 1) / bs

/-- A simple well-formed record with chosen quantity and price, used to
probe the suspicious-value thresholds. -/
def mkSimpleRec (tid : String) (q p : ℚ) : RawRecord :=
  { transaction_id := some tid
    customer_id := some "C9"
    product := .dict
      { id := some "P02"
        name := some "Desk"
        category := some "Furniture"
        price := some p }
    quantity := some q
    date := some "2023-02-11"
    region := some "South" }

/-- Four boundary records for the suspicious-value thresholds:
quantity 1000 (not flagged) and 1001 (flagged); total value 100000 (not
flagged) and 100000.01 (flagged). -/
def boundaryBatch : List RawRecord :=
  [mkSimpleRec "B1" 1000 1, mkSimpleRec "B2" 1001 1,
   mkSimpleRec "B3" 1 100000, mkSimpleRec "B4" 1 (10000001 / 100)]

deriving instance DecidableEq for Except

unseal Rat.mul Rat.inv Rat.add Rat.sub

/-! ### Claim theorems: concrete evaluations -/

/-- Claim C1 (code bug in the source): the claim states that after the
transform stage `has_missing_customer` is true iff the record's original
`customer_id` was null, and that the null case carries the documented
sentinel `"Unknown"`.  The code instead pre-fills null customer ids with
`'GUEST'` in `_initial_prep`, so detector 1's `isna()` test can never
fire: on a record whose original `customer_id` is null the transform
output has `has_missing_customer = false` and `customer_id = 'GUEST'`,
and the sentinel `'Unknown'` is unreachable. -/
theorem c1_missing_customer_code_behavior :
    scenarioRec.customer_id = none ∧
    (transform [scenarioRec]).map
        (fun df => df.map fun r => (r.has_missing_customer, r.customer_id)) =
      .ok [(false, some "GUEST")] := by
  decide

/-- Claim C2, counterexample: the spec's end-to-end scenario does not
yield a Customer row `"Unknown"` nor a Transaction row with
`total_value = 75.0` and `has_missing_customer = true`. -/
theorem c2_counterexample :
    ¬ ((transform [scenarioRec]).map prepareCustomersDf = .ok ["Unknown"] ∧
       (transform [scenarioRec]).map (fun df => (prepareProductsDf df).length) = .ok 1 ∧
       (transform [scenarioRec]).map
           (fun df => (prepareTransactionsDf df).map fun t =>
             (t.quantity, t.total_value, t.has_missing_customer, t.had_negative_quantity)) =
         .ok [(some 3, some 75, true, true)]) := by
  decide

/-- Claim C2 as amended: the scenario input yields exactly one Customer
row, whose id is `'GUEST'` (not `'Unknown'`), one Product row, and one
Transaction row with `quantity = 3`, `total_value = -75.0` (computed from
the pre-repair quantity), `has_missing_customer = false` and
`had_negative_quantity = true`. -/
theorem c2_amended_scenario :
    (transform [scenarioRec]).map prepareCustomersDf = .ok ["GUEST"] ∧
    (transform [scenarioRec]).map prepareProductsDf =
      .ok [(some "P01", some "Mouse", some "Accessories", some 25)] ∧
    (transform [scenarioRec]).map
        (fun df => (prepareTransactionsDf df).map fun t =>
          (t.quantity, t.total_value, t.has_missing_customer, t.had_negative_quantity)) =
      .ok [(some 3, some (-75), false, true)] :=
  ⟨by decide, by decide, by decide⟩

/-- Claim C3, counterexample: on a two-record batch whose first date
parses with a changed string form (seeding `had_date_format_issue` true)
and whose second date fails to parse outright, detector 6 overwrites the
whole flag column with its parse-failure mask, resetting the first row's
flag from true back to false within the same run. -/
theorem c3_counterexample :
    (initialPrep [dateChangedRec, dateBrokenRec]).map
        (fun df => df.map Row.had_date_format_issue) = .ok [true, true] ∧
    (transform [dateChangedRec, dateBrokenRec]).map
        (fun df => df.map Row.had_date_format_issue) = .ok [false, true] := by
  decide

/-- Claim C8, counterexample: on a batch in which every record lacks the
`product` mapping, `json_normalize` creates neither the flattened
`product.id` columns nor a scalar `product` column, and the manual
flattening branch's `df['product']` raises `KeyError` — normalization
does raise for missing product data in this case. -/
theorem c8_counterexample :
    noProductRec.product = ProductField.absent ∧
    transform [noProductRec] = .error .keyError := by
  decide

/-- A successful tolerant parse only ever returns a canonical date. -/
theorem dateParse_ok_canonical {s d : String} (h : dateParse s = .ok d) :
    isCanonicalDate d = true := by
  unfold dateParse at h
  by_cases hc : isCanonicalDate s
  · rw [if_pos hc] at h
    cases h
    exact hc
  · rw [if_neg hc] at h
    cases h

/-- Claim C6: `standardize_date` maps `"2023-07-22"` to itself, recovers
`"20 23-07-22"` to `"2023-07-22"` via the split-year rewrite, returns
null on `"not a date"`, and on every input returns either a canonical
`YYYY-MM-DD` string or null (the embedding is a total function into
`Option`, mirroring that both `except` clauses of the source cover every
error the modelled parser raises). -/
theorem c6_standardize_date :
    standardize_date (some "2023-07-22") = some "2023-07-22" ∧
    standardize_date (some "20 23-07-22") = some "2023-07-22" ∧
    standardize_date (some "not a date") = none ∧
    ∀ s r, standardize_date s = some r → isCanonicalDate r = true := by
  refine ⟨by decide, by decide, by decide, ?_⟩
  intro s r h
  cases s with
  | none => simp [standardize_date] at h
  | some s0 =>
    simp only [standardize_date] at h
    cases hp : dateParse (pyStrip s0) with
    | ok d =>
      rw [hp] at h
      cases h
      exact dateParse_ok_canonical hp
    | error e =>
      rw [hp] at h
      cases hp2 : dateParse (String.mk (collapseWs false (fixSplitYear (pyStrip s0).toList))) with
      | ok d2 =>
        rw [hp2] at h
        cases h
        exact dateParse_ok_canonical hp2
      | error e2 =>
        rw [hp2] at h
        simp at h

/-- Claim C6, witness: the universal canonical-output part instantiated at
the round-trip input. -/
theorem c6_standardize_date_witness :
    standardize_date (some "2023-07-22") = some "2023-07-22" ∧
      isCanonicalDate "2023-07-22" = true :=
  ⟨c6_standardize_date.1,
    c6_standardize_date.2.2.2 (some "2023-07-22") "2023-07-22" c6_standardize_date.1⟩

/-- Claim C10: a valid-but-empty JSON array yields an empty record list
from `DataExtractor.from_json` and `ETLPipeline.run` returns `False`
without entering the transform or load stages — indistinguishable at the
pipeline interface from a missing file or malformed content, which also
yield the empty list and the identical aborted run. -/
theorem c10_empty_input_indistinguishable :
    from_json (.valid []) = ([] : List RawRecord) ∧
    from_json .missing = ([] : List RawRecord) ∧
    from_json .malformed = ([] : List RawRecord) ∧
    ∀ (schemaOk engineOk : Bool) (ok : String → Nat → Bool) (bs : Nat),
      etlRun schemaOk (.valid []) engineOk ok bs = .ok ⟨false, false, false⟩ ∧
      etlRun schemaOk .missing engineOk ok bs = etlRun schemaOk (.valid []) engineOk ok bs ∧
      etlRun schemaOk .malformed engineOk ok bs = etlRun schemaOk (.valid []) engineOk ok bs := by
  refine ⟨rfl, rfl, rfl, ?_⟩
  intro schemaOk engineOk ok bs
  cases schemaOk <;> simp [etlRun, from_json]

/-! ### Structure lemmas for the quality-check passes -/

/-- Detector 1 either leaves the rows untouched (zero count) or rewrites
every row with `mcUpdate`. -/
theorem checkMissingCustomer_cases (rows : List Row) :
    (rows.countP missingCustomerMask = 0 ∧ (checkMissingCustomer rows).1 = rows) ∨
    (0 < rows.countP missingCustomerMask ∧
      (checkMissingCustomer rows).1 = rows.map mcUpdate) := by
  unfold checkMissingCustomer
  by_cases h : 0 < rows.countP missingCustomerMask
  · exact Or.inr ⟨h, by rw [if_pos h]⟩
  · exact Or.inl ⟨by omega, by rw [if_neg h]⟩

/-- Detector 2 either leaves the rows untouched or rewrites every row
with `nqUpdate`. -/
theorem checkNegativeQuantities_cases (rows : List Row) :
    (rows.countP negativeQuantityMask = 0 ∧ (checkNegativeQuantities rows).1 = rows) ∨
    (0 < rows.countP negativeQuantityMask ∧
      (checkNegativeQuantities rows).1 = rows.map nqUpdate) := by
  unfold checkNegativeQuantities
  by_cases h : 0 < rows.countP negativeQuantityMask
  · exact Or.inr ⟨h, by rw [if_pos h]⟩
  · exact Or.inl ⟨by omega, by rw [if_neg h]⟩

/-- Detector 6 either leaves the rows untouched or rewrites every row
with `diUpdate`. -/
theorem checkDateIssues_cases (rows : List Row) :
    (rows.countP dateIssueMask = 0 ∧ (checkDateIssues rows).1 = rows) ∨
    (0 < rows.countP dateIssueMask ∧ (checkDateIssues rows).1 = rows.map diUpdate) := by
  unfold checkDateIssues
  by_cases h : 0 < rows.countP dateIssueMask
  · exact Or.inr ⟨h, by rw [if_pos h]⟩
  · exact Or.inl ⟨by omega, by rw [if_neg h]⟩

/-- Detector 8 either leaves the rows untouched or rewrites every row
with `svUpdate`. -/
theorem checkSuspiciousValues_cases (rows : List Row) :
    (rows.countP suspiciousMask = 0 ∧ (checkSuspiciousValues rows).1 = rows) ∨
    (0 < rows.countP suspiciousMask ∧
      (checkSuspiciousValues rows).1 = rows.map svUpdate) := by
  unfold checkSuspiciousValues
  by_cases h : 0 < rows.countP suspiciousMask
  · exact Or.inr ⟨h, by rw [if_pos h]⟩
  · exact Or.inl ⟨by omega, by rw [if_neg h]⟩

/-- A pass that is the identity or a per-row map relates input and output
rows pointwise. -/
theorem forall2_of_cases {s s' : List Row} {f : Row → Row} {Q : Row → Row → Prop}
    (hc : s' = s ∨ s' = s.map f)
    (hid : ∀ a ∈ s, Q a a) (hf : ∀ a ∈ s, Q a (f a)) :
    List.Forall₂ Q s s' := by
  cases hc with
  | inl e =>
    subst e
    exact List.forall₂_same.mpr hid
  | inr e =>
    subst e
    induction s with
    | nil => exact List.Forall₂.nil
    | cons x xs ih =>
      simp only [List.map_cons]
      exact List.Forall₂.cons (hf x (by simp))
        (ih (fun a ha => hid a (by simp [ha])) (fun a ha => hf a (by simp [ha])))

/-- Every output row of an identity-or-map pass comes from an input row,
either unchanged or rewritten. -/
theorem mem_of_cases {s s' : List Row} {f : Row → Row}
    (hc : s' = s ∨ s' = s.map f) {r : Row} (h : r ∈ s') :
    ∃ a ∈ s, r = a ∨ r = f a := by
  cases hc with
  | inl e =>
    subst e
    exact ⟨r, h, Or.inl rfl⟩
  | inr e =>
    subst e
    obtain ⟨a, ha, rfl⟩ := List.mem_map.mp h
    exact ⟨a, ha, Or.inr rfl⟩

/-- An identity-or-map pass preserves the number of rows. -/
theorem length_of_cases {s s' : List Row} {f : Row → Row}
    (hc : s' = s ∨ s' = s.map f) : s'.length = s.length := by
  rcases hc with rfl | rfl <;> simp

/-- A field equality between rows composes across two passes. -/
theorem forall2_eq_trans {γ : Type} (fld : Row → γ) {s t u : List Row}
    (h1 : List.Forall₂ (fun a b => fld a = fld b) s t)
    (h2 : List.Forall₂ (fun a b => fld a = fld b) t u) :
    List.Forall₂ (fun a b => fld a = fld b) s u := by
  induction h1 generalizing u with
  | nil =>
    cases h2
    exact .nil
  | cons hab h ih =>
    cases h2 with
    | cons hbc h2t => exact .cons (hab.trans hbc) (ih h2t)

/-- `perform_checks` returns exactly the result of threading the rows
through detectors 1, 2, 6 and 8; the count-only detectors 3, 4, 5 and 7
do not appear. -/
theorem performChecks_fst (rows : List Row) :
    (performChecks rows).1 =
      (checkSuspiciousValues (checkDateIssues (checkNegativeQuantities
        (checkMissingCustomer (rows.map initFlags)).1).1).1).1 := rfl

/-- `perform_checks` never adds or removes a row. -/
theorem performChecks_length (rows : List Row) :
    ((performChecks rows).1).length = rows.length := by
  rw [performChecks_fst,
    length_of_cases ((checkSuspiciousValues_cases _).imp And.right And.right),
    length_of_cases ((checkDateIssues_cases _).imp And.right And.right),
    length_of_cases ((checkNegativeQuantities_cases _).imp And.right And.right),
    length_of_cases ((checkMissingCustomer_cases _).imp And.right And.right)]
  simp

/-- Claim C3 as amended: the flags `has_missing_customer`,
`had_negative_quantity` and `has_suspicious_values` are never reset from
true to false by any later step of the same run; but
`had_date_format_issue` is not monotone — it is untouched by detectors 1
and 2, and detector 6, whenever at least one row has an outright parse
failure, overwrites the whole column with its parse-failure mask,
resetting the seeded value of rows whose date did parse (detector 8
leaves it alone afterwards). -/
theorem c3_flag_monotonicity_amended (rows : List Row) :
    let s0 := rows.map initFlags
    let s1 := (checkMissingCustomer s0).1
    let s2 := (checkNegativeQuantities s1).1
    let s6 := (checkDateIssues s2).1
    let s8 := (checkSuspiciousValues s6).1
    (performChecks rows).1 = s8 ∧
    List.Forall₂ flagLe s0 s1 ∧
    List.Forall₂ flagLe s1 s2 ∧
    List.Forall₂ flagLe s2 s6 ∧
    List.Forall₂ flagLe s6 s8 ∧
    List.Forall₂ (fun a b => a.had_date_format_issue = b.had_date_format_issue) s0 s2 ∧
    (if 0 < s2.countP dateIssueMask then s6 = s2.map diUpdate else s6 = s2) ∧
    List.Forall₂ (fun a b => a.had_date_format_issue = b.had_date_format_issue) s6 s8 := by
  intro s0 s1 s2 s6 s8
  have hs0 : ∀ a ∈ s0, a.has_missing_customer = false ∧ a.had_negative_quantity = false ∧
      a.has_suspicious_values = false := by
    intro a ha
    obtain ⟨b, _, rfl⟩ := List.mem_map.mp ha
    exact ⟨rfl, rfl, rfl⟩
  have hc1 := (checkMissingCustomer_cases s0).imp And.right And.right
  have hc2 := (checkNegativeQuantities_cases s1).imp And.right And.right
  have hc6 := (checkDateIssues_cases s2).imp And.right And.right
  have hc8 := (checkSuspiciousValues_cases s6).imp And.right And.right
  have hs1 : ∀ a ∈ s1, a.had_negative_quantity = false ∧ a.has_suspicious_values = false := by
    intro a ha
    obtain ⟨b, hb, hba⟩ := mem_of_cases hc1 ha
    rcases hba with rfl | rfl
    · exact ⟨(hs0 _ hb).2.1, (hs0 _ hb).2.2⟩
    · simpa [mcUpdate] using ⟨(hs0 _ hb).2.1, (hs0 _ hb).2.2⟩
  have hs2 : ∀ a ∈ s2, a.has_suspicious_values = false := by
    intro a ha
    obtain ⟨b, hb, hba⟩ := mem_of_cases hc2 ha
    rcases hba with rfl | rfl
    · exact (hs1 _ hb).2
    · simpa [nqUpdate] using (hs1 _ hb).2
  have hs6 : ∀ a ∈ s6, a.has_suspicious_values = false := by
    intro a ha
    obtain ⟨b, hb, hba⟩ := mem_of_cases hc6 ha
    rcases hba with rfl | rfl
    · exact hs2 _ hb
    · simpa [diUpdate] using hs2 _ hb
  refine ⟨rfl, ?_, ?_, ?_, ?_, ?_, ?_, ?_⟩
  · exact forall2_of_cases hc1 (fun a _ => ⟨id, id, id⟩)
      (fun a ha => ⟨fun h => by simp [(hs0 a ha).1] at h, id, id⟩)
  · exact forall2_of_cases hc2 (fun a _ => ⟨id, id, id⟩)
      (fun a ha => ⟨id, fun h => by simp [(hs1 a ha).1] at h, id⟩)
  · exact forall2_of_cases hc6 (fun a _ => ⟨id, id, id⟩) (fun a _ => ⟨id, id, id⟩)
  · exact forall2_of_cases hc8 (fun a _ => ⟨id, id, id⟩)
      (fun a ha => ⟨id, id, fun h => by simp [hs6 a ha] at h⟩)
  · exact forall2_eq_trans Row.had_date_format_issue
      (forall2_of_cases hc1 (fun a _ => rfl) (fun a _ => rfl))
      (forall2_of_cases hc2 (fun a _ => rfl) (fun a _ => rfl))
  · rcases checkDateIssues_cases s2 with ⟨h0, he⟩ | ⟨hpos, he⟩
    · rw [if_neg (by omega)]
      exact he
    · rw [if_pos hpos]
      exact he
  · exact forall2_of_cases hc8 (fun a _ => rfl) (fun a _ => rfl)

/-- Claim C9: detectors 3, 4, 5 and 7 produce counts only — the row
output of `perform_checks` is exactly the composition of detectors 1, 2,
6 and 8, with no row added or removed — and the Transactions projection
is a plain per-row image of the transformed table: one projected row per
working row, none excluded for any flag. -/
theorem c9_diagnostic_detectors_frame (rows df : List Row) :
    (performChecks rows).1 =
      (checkSuspiciousValues (checkDateIssues (checkNegativeQuantities
        (checkMissingCustomer (rows.map initFlags)).1).1).1).1 ∧
    ((performChecks rows).1).length = rows.length ∧
    prepareTransactionsDf df = df.map rowToTxn ∧
    (prepareTransactionsDf df).length = df.length :=
  ⟨rfl, performChecks_length rows, rfl, by simp [prepareTransactionsDf]⟩

/-- A successful transform run means some record carried the `product`
key, and the output is the quality-checked image of the prepared rows. -/
theorem transform_ok {data : List RawRecord} {df : List Row}
    (h : transform data = .ok df) :
    hasProductKey data = true ∧ df = (performChecks (data.map prepRow)).1 := by
  unfold transform initialPrep at h
  by_cases hk : hasProductKey data
  · rw [if_pos hk] at h
    refine ⟨hk, ?_⟩
    simpa [Except.map] using h.symm
  · rw [if_neg hk] at h
    simp [Except.map] at h

/-- Carry a record-to-row relation across one identity-or-map pass. -/
theorem forall2_step {P Q : RawRecord → Row → Prop} {l : List RawRecord}
    {s s' : List Row} {f : Row → Row}
    (hc : s' = s ∨ s' = s.map f) (h : List.Forall₂ P l s)
    (hid : ∀ a b, P a b → Q a b) (hf : ∀ a b, P a b → Q a (f b)) :
    List.Forall₂ Q l s' := by
  cases hc with
  | inl e =>
    subst e
    exact h.imp hid
  | inr e =>
    subst e
    induction h with
    | nil => exact .nil
    | cons hab ht ih => exact .cons (hf _ _ hab) ih

/-- Claim C4, counterexample: in the scenario row the final quantity is 3
and the price 25, but `total_value` is `-75`, not `3 * 25`: the product
is taken with the pre-repair (signed) quantity. -/
theorem c4_counterexample :
    (transform [scenarioRec]).map
        (fun df => df.map fun r => (r.quantity, r.price, r.total_value)) =
      .ok [(some 3, some 25, some (-75))] ∧ ((-75 : ℚ) ≠ 3 * 25) :=
  ⟨by decide, by decide⟩

/-- Claim C4 as amended: for every row of the final transformed table,
`total_value` is null iff `price` is null or `quantity` is null;
otherwise `total_value` equals the record's original (pre-repair)
quantity times the price — for a negative original quantity this is the
negation of the final `quantity * price`. -/
theorem c4_amended_total_value (data : List RawRecord) (df : List Row)
    (h : transform data = .ok df) :
    List.Forall₂ (fun (rec : RawRecord) (r : Row) =>
      (r.total_value = none ↔ (r.price = none ∨ r.quantity = none)) ∧
      (∀ q p, rec.quantity = some q → r.price = some p → r.total_value = some (q * p)))
      data df := by
  obtain ⟨hk, rfl⟩ := transform_ok h
  rw [performChecks_fst]
  have base : List.Forall₂ (fun (rec : RawRecord) (r : Row) =>
      r.price = (productFields rec).2.2.2 ∧
      r.total_value = (match rec.quantity, (productFields rec).2.2.2 with
        | some q, some p => some (q * p)
        | _, _ => none) ∧
      r.quantity.isNone = rec.quantity.isNone)
      data ((data.map prepRow).map initFlags) := by
    rw [List.map_map, List.forall₂_map_right_iff]
    exact List.forall₂_same.mpr fun rec _ => ⟨rfl, rfl, rfl⟩
  have s1 := forall2_step ((checkMissingCustomer_cases _).imp And.right And.right) base
    (fun a b hb => hb) (fun a b hb => hb)
  have s2 := forall2_step ((checkNegativeQuantities_cases _).imp And.right And.right) s1
    (fun a b hb => hb)
    (fun a b hb => ⟨hb.1, hb.2.1, by simpa [nqUpdate] using hb.2.2⟩)
  have s6 := forall2_step ((checkDateIssues_cases _).imp And.right And.right) s2
    (fun a b hb => hb) (fun a b hb => hb)
  have s8 := forall2_step ((checkSuspiciousValues_cases _).imp And.right And.right) s6
    (fun a b hb => hb) (fun a b hb => hb)
  refine s8.imp fun rec r hr => ?_
  obtain ⟨hprice, htv, hq⟩ := hr
  have hq' : r.quantity = none ↔ rec.quantity = none := by
    rw [← Option.isNone_iff_eq_none, ← Option.isNone_iff_eq_none, hq]
  constructor
  · cases hrq : rec.quantity <;> cases hpp : (productFields rec).2.2.2 <;>
      simp [htv, hprice, hrq, hpp, hq']
  · intro q p hq2 hp2
    rw [hprice] at hp2
    rw [htv, hq2, hp2]

/-- Claim C4, witness: the amended statement instantiated on the
end-to-end scenario record. -/
theorem c4_amended_total_value_witness :
    transform [scenarioRec] = .ok ((performChecks ([scenarioRec].map prepRow)).1) ∧
    List.Forall₂ (fun (rec : RawRecord) (r : Row) =>
      (r.total_value = none ↔ (r.price = none ∨ r.quantity = none)) ∧
      (∀ q p, rec.quantity = some q → r.price = some p → r.total_value = some (q * p)))
      [scenarioRec] ((performChecks ([scenarioRec].map prepRow)).1) :=
  ⟨by decide, c4_amended_total_value [scenarioRec] _ (by decide)⟩

/-- Before detector 8 runs, every row still has
`has_suspicious_values = false`: the column is created as `False` and no
earlier detector writes it. -/
theorem susp_false_before_check8 (rows : List Row) :
    ∀ a ∈ (checkDateIssues (checkNegativeQuantities
      (checkMissingCustomer (rows.map initFlags)).1).1).1,
      a.has_suspicious_values = false := by
  intro a ha
  obtain ⟨b, hb, hba⟩ :=
    mem_of_cases ((checkDateIssues_cases _).imp And.right And.right) ha
  obtain ⟨c, hc, hcb⟩ :=
    mem_of_cases ((checkNegativeQuantities_cases _).imp And.right And.right) hb
  obtain ⟨d, hd, hdc⟩ :=
    mem_of_cases ((checkMissingCustomer_cases _).imp And.right And.right) hc
  obtain ⟨e, _, rfl⟩ := List.mem_map.mp hd
  rcases hdc with rfl | rfl <;> rcases hcb with rfl | rfl <;> rcases hba with rfl | rfl <;>
    simp [initFlags, mcUpdate, nqUpdate, diUpdate]

/-- The detector 8 mask holds exactly when one of the three spec
conditions holds with a strict comparison on a non-null cell. -/
theorem suspiciousMask_iff (r : Row) :
    suspiciousMask r = true ↔
      ((∃ q, r.quantity = some q ∧ 1000 < q) ∨
       (∃ p, r.price = some p ∧ p < 1 / 100) ∨
       (∃ tv, r.total_value = some tv ∧ 100000 < tv)) := by
  unfold suspiciousMask
  cases hq : r.quantity <;> cases hp : r.price <;> cases htv : r.total_value <;>
    simp [hq, hp, htv, or_assoc]

/-- Claim C7: after the quality checks a row's `has_suspicious_values`
flag is true iff `quantity > 1000` or `price < 0.01` or
`total_value > 100000`, with strict comparisons at the thresholds — on
the boundary batch, quantity 1000 and total value 100000 are not flagged
while quantity 1001 and total value 100000.01 are. -/
theorem c7_suspicious_values (data : List RawRecord) (df : List Row)
    (h : transform data = .ok df) :
    (∀ r ∈ df, (r.has_suspicious_values = true ↔
      ((∃ q, r.quantity = some q ∧ 1000 < q) ∨
       (∃ p, r.price = some p ∧ p < 1 / 100) ∨
       (∃ tv, r.total_value = some tv ∧ 100000 < tv)))) ∧
    (transform boundaryBatch).map (fun l => l.map Row.has_suspicious_values) =
      .ok [false, true, false, true] := by
  refine ⟨?_, by decide⟩
  obtain ⟨hk, rfl⟩ := transform_ok h
  rw [performChecks_fst]
  intro r hr
  rcases checkSuspiciousValues_cases (checkDateIssues (checkNegativeQuantities
      (checkMissingCustomer ((data.map prepRow).map initFlags)).1).1).1 with
    ⟨h0, he⟩ | ⟨hpos, he⟩
  · rw [he] at hr
    have hmask : suspiciousMask r = false := by
      have := List.countP_eq_zero.mp h0 r hr
      simpa using this
    rw [susp_false_before_check8 _ _ hr, ← suspiciousMask_iff, hmask]
  · rw [he] at hr
    obtain ⟨a, _, rfl⟩ := List.mem_map.mp hr
    rw [← suspiciousMask_iff]
    exact Iff.rfl

/-- Claim C7, witness: the iff instantiated on the scenario run. -/
theorem c7_suspicious_values_witness :
    transform [scenarioRec] = .ok ((performChecks ([scenarioRec].map prepRow)).1) ∧
    (∀ r ∈ (performChecks ([scenarioRec].map prepRow)).1,
      (r.has_suspicious_values = true ↔
        ((∃ q, r.quantity = some q ∧ 1000 < q) ∨
         (∃ p, r.price = some p ∧ p < 1 / 100) ∨
         (∃ tv, r.total_value = some tv ∧ 100000 < tv)))) :=
  ⟨by decide, (c7_suspicious_values [scenarioRec] _ (by decide)).1⟩

/-- Claim C8 as amended: whenever at least one record of the batch
carries the `product` key, normalization raises nothing and every record
lacking a product mapping yields a row whose `product_id`,
`product_name`, `category` and `price` are all null; the no-exception
part fails only for a batch in which every record lacks the key
entirely. -/
theorem c8_amended_missing_product (data : List RawRecord)
    (h : hasProductKey data = true) :
    transform data = .ok ((performChecks (data.map prepRow)).1) ∧
    List.Forall₂ (fun (rec : RawRecord) (r : Row) =>
      rec.product = ProductField.absent →
        r.product_id = none ∧ r.product_name = none ∧
        r.category = none ∧ r.price = none)
      data ((performChecks (data.map prepRow)).1) := by
  constructor
  · unfold transform initialPrep
    rw [if_pos h]
    rfl
  · rw [performChecks_fst]
    have base : List.Forall₂ (fun (rec : RawRecord) (r : Row) =>
        rec.product = ProductField.absent →
          r.product_id = none ∧ r.product_name = none ∧
          r.category = none ∧ r.price = none)
        data ((data.map prepRow).map initFlags) := by
      rw [List.map_map, List.forall₂_map_right_iff]
      refine List.forall₂_same.mpr fun rec _ habs => ?_
      simp [Function.comp, initFlags, prepRow, productFields, habs]
    have s1 := forall2_step ((checkMissingCustomer_cases _).imp And.right And.right) base
      (fun a b hb => hb) (fun a b hb => hb)
    have s2 := forall2_step ((checkNegativeQuantities_cases _).imp And.right And.right) s1
      (fun a b hb => hb) (fun a b hb => hb)
    have s6 := forall2_step ((checkDateIssues_cases _).imp And.right And.right) s2
      (fun a b hb => hb) (fun a b hb => hb)
    exact forall2_step ((checkSuspiciousValues_cases _).imp And.right And.right) s6
      (fun a b hb => hb) (fun a b hb => hb)

/-- Claim C8, witness: the amended statement on a batch with one product
mapping and one record lacking the key. -/
theorem c8_amended_missing_product_witness :
    hasProductKey [scenarioRec, noProductRec] = true ∧
    (transform [scenarioRec, noProductRec] =
        .ok ((performChecks ([scenarioRec, noProductRec].map prepRow)).1) ∧
      List.Forall₂ (fun (rec : RawRecord) (r : Row) =>
        rec.product = ProductField.absent →
          r.product_id = none ∧ r.product_name = none ∧
          r.category = none ∧ r.price = none)
        [scenarioRec, noProductRec]
        ((performChecks ([scenarioRec, noProductRec].map prepRow)).1)) :=
  ⟨by decide, c8_amended_missing_product _ (by decide)⟩

/-! ### Chunking and batch-loading lemmas -/

/-- The chunks of a list concatenate back to the list. -/
theorem chunksOf_flatten {α} (b : Nat) (l : List α) :
    (chunksOf (b + 1) l).flatten = l := by
  suffices h : ∀ (n : Nat) (l : List α), l.length = n → (chunksOf (b + 1) l).flatten = l from
    h _ l rfl
  intro n
  induction n using Nat.strong_induction_on with
  | _ n ih =>
    intro l hn
    cases l with
    | nil => simp [chunksOf]
    | cons x xs =>
      have hlt : ((x :: xs).drop (b + 1)).length < n := by
        subst hn
        simp
        omega
      simp only [chunksOf, List.flatten_cons]
      rw [ih _ hlt _ rfl, List.take_append_drop]

/-- Every chunk holds at most `b + 1` rows. -/
theorem chunksOf_mem_length {α} (b : Nat) (l : List α) :
    ∀ c ∈ chunksOf (b + 1) l, c.length ≤ b + 1 := by
  suffices h : ∀ (n : Nat) (l : List α), l.length = n → ∀ c ∈ chunksOf (b + 1) l, c.length ≤ b + 1 from
    h _ l rfl
  intro n
  induction n using Nat.strong_induction_on with
  | _ n ih =>
    intro l hn
    cases l with
    | nil => simp [chunksOf]
    | cons x xs =>
      have hlt : ((x :: xs).drop (b + 1)).length < n := by
        subst hn
        simp
        omega
      simp only [chunksOf]
      intro c hc
      rcases List.mem_cons.mp hc with rfl | hc2
      · rw [List.length_take]
        exact inf_le_left
      · exact ih _ hlt _ rfl c hc2

/-- There are `ceil(n / (b+1))` chunks. -/
theorem chunksOf_length {α} (b : Nat) (l : List α) :
    (chunksOf (b + 1) l).length = (l.length + b) / (b + 1) := by
  suffices h : ∀ (n : Nat) (l : List α),
      l.length = n → (chunksOf (b + 1) l).length = (l.length + b) / (b + 1) from h _ l rfl
  intro n
  induction n using Nat.strong_induction_on with
  | _ n ih =>
    intro l hn
    cases l with
    | nil =>
      simp [chunksOf]
      exact (Nat.div_eq_of_lt (by omega)).symm
    | cons x xs =>
      have hlt : ((x :: xs).drop (b + 1)).length < n := by
        subst hn
        simp
        omega
      simp only [chunksOf, List.length_cons]
      rw [ih _ hlt _ rfl]
      have hd : ((x :: xs).drop (b + 1)).length = xs.length + 1 - (b + 1) := by simp
      rw [hd]
      have h1 : (xs.length + 1 + b) / (b + 1) = (xs.length + 1 + b - (b + 1)) / (b + 1) + 1 :=
        Nat.div_eq_sub_div (by omega) (by omega)
      rw [h1]
      by_cases hcase : b + 1 ≤ xs.length + 1
      · have he : xs.length + 1 - (b + 1) + b = xs.length + 1 + b - (b + 1) := by omega
        rw [he]
      · rw [Nat.div_eq_of_lt (by omega), Nat.div_eq_of_lt (by omega)]

/-- The full chunking contract for any positive batch size. -/
theorem chunkSpec_of_pos {α} (bs : Nat) (h : 0 < bs) (l : List α) :
    chunkSpec bs l := by
  obtain ⟨b, rfl⟩ : ∃ b, bs = b + 1 := ⟨bs - 1, by omega⟩
  refine ⟨chunksOf_flatten b l, chunksOf_mem_length b l, ?_⟩
  rw [chunksOf_length b l]
  congr 1

/-- `runChunks` records exactly the acknowledged prefix of the indexed
chunk writes and succeeds iff every write is acknowledged. -/
theorem runChunks_eq {α} (ok : Nat → Bool) (i : Nat) (cs : List (List α)) :
    runChunks ok i cs =
      ((List.enumFrom i cs).takeWhile fun w => ok w.1,
       (List.enumFrom i cs).all fun w => ok w.1) := by
  induction cs generalizing i with
  | nil => simp [runChunks]
  | cons c cs ih =>
    simp only [runChunks, List.enumFrom]
    by_cases h : ok i
    · rw [if_pos h, ih (i + 1)]
      simp [List.takeWhile_cons, h]
    · rw [if_neg h]
      simp [List.takeWhile_cons, h]

/-- The skip-on-empty guard of `_load_table_in_batches` agrees with the
chunk-level description (an empty projection has no chunks). -/
theorem loadTableInBatches_eq {α} (ok : Nat → Bool) (rows : List α) (bs : Nat) :
    loadTableInBatches ok rows bs =
      ((List.enumFrom 0 (chunksOf bs rows)).takeWhile fun w => ok w.1,
       (List.enumFrom 0 (chunksOf bs rows)).all fun w => ok w.1) := by
  unfold loadTableInBatches
  by_cases h : rows.isEmpty
  · rw [if_pos h, List.isEmpty_iff.mp h]
    simp [chunksOf]
  · rw [if_neg h]
    exact runChunks_eq ok 0 _

/-- `all` over a map whose function may change the element type. -/
theorem all_map_general {α β} (f : α → β) (p : β → Bool) (l : List α) :
    (l.map f).all p = l.all fun a => p (f a) := by
  induction l with
  | nil => rfl
  | cons a l ih => simp [ih]

/-- `takeWhile` passes a fully satisfied block. -/
theorem takeWhile_append_of_all {α} {p : α → Bool} {xs ys : List α}
    (h : xs.all p = true) :
    (xs ++ ys).takeWhile p = xs ++ ys.takeWhile p := by
  induction xs with
  | nil => simp
  | cons a l ih =>
    simp only [List.all_cons, Bool.and_eq_true] at h
    simp [List.takeWhile_cons, h.1, ih h.2]

/-- `takeWhile` never reaches past a block it fails inside. -/
theorem takeWhile_append_of_not_all {α} {p : α → Bool} {xs ys : List α}
    (h : xs.all p = false) :
    (xs ++ ys).takeWhile p = xs.takeWhile p := by
  induction xs with
  | nil => simp at h
  | cons a l ih =>
    by_cases ha : p a
    · simp only [List.all_cons, ha, Bool.true_and] at h
      simp [List.takeWhile_cons, ha, ih h]
    · simp [List.takeWhile_cons, ha]

/-- Tagging one table's writes commutes with cutting at the first
failure. -/
theorem tagWrites_takeWhile {α} (t : String) (ok : String → Nat → Bool)
    (ws : List (Nat × List α)) :
    tagWrites t (ws.takeWhile fun w => ok t w.1) =
      (tagWrites t ws).takeWhile fun w => ok w.1 w.2 := by
  unfold tagWrites
  rw [List.takeWhile_map]
  rfl

/-- Whether all of one table's tagged writes are acknowledged only
depends on the untagged writes. -/
theorem tagWrites_all {α} (t : String) (ok : String → Nat → Bool)
    (ws : List (Nat × List α)) :
    (tagWrites t ws).all (fun w => ok w.1 w.2) = ws.all fun w => ok t w.1 := by
  unfold tagWrites
  rw [all_map_general]

/-- The tagged writes of a whole table are the table name paired with
the ascending chunk indices. -/
theorem tagWrites_enumFrom {α} (t : String) (cs : List (List α)) :
    tagWrites t (List.enumFrom 0 cs) = (List.range cs.length).map fun i => (t, i) := by
  unfold tagWrites
  have h1 : (List.enumFrom 0 cs).map (fun w => (t, w.1)) =
      ((List.enumFrom 0 cs).map Prod.fst).map fun i => (t, i) := by
    rw [List.map_map]
    rfl
  rw [h1, List.enumFrom_map_fst, ← List.range_eq_range']

/-- Claim C5: with a positive batch size the loader splits every
projection into `ceil(n / batch_size)` consecutive chunks of at most
`batch_size` rows, writes them one append per chunk in ascending index
order in the fixed table order customers, products, transactions, stops
at the first failed chunk write — no later chunk of that table nor any
later table is written — and returns success iff every chunk write is
acknowledged. -/
theorem c5_batch_loading (df : List Row) (bs : Nat) (ok : String → Nat → Bool)
    (hbs : 0 < bs) :
    chunkSpec bs (prepareCustomersDf df) ∧
    chunkSpec bs (prepareProductsDf df) ∧
    chunkSpec bs (prepareTransactionsDf df) ∧
    (load_with_batch_processing true ok df bs).writes =
      (expectedWrites df bs).takeWhile (fun w => ok w.1 w.2) ∧
    (load_with_batch_processing true ok df bs).success =
      (expectedWrites df bs).all (fun w => ok w.1 w.2) := by
  refine ⟨chunkSpec_of_pos bs hbs _, chunkSpec_of_pos bs hbs _, chunkSpec_of_pos bs hbs _, ?_⟩
  unfold load_with_batch_processing expectedWrites
  rw [if_pos rfl]
  simp only [loadTableInBatches_eq, tagWrites_takeWhile]
  rw [← tagWrites_enumFrom "customers" (chunksOf bs (prepareCustomersDf df)),
    ← tagWrites_enumFrom "products" (chunksOf bs (prepareProductsDf df)),
    ← tagWrites_enumFrom "transactions" (chunksOf bs (prepareTransactionsDf df))]
  set A := tagWrites "customers" (List.enumFrom 0 (chunksOf bs (prepareCustomersDf df)))
    with hA
  set B := tagWrites "products" (List.enumFrom 0 (chunksOf bs (prepareProductsDf df)))
    with hB
  set C := tagWrites "transactions" (List.enumFrom 0 (chunksOf bs (prepareTransactionsDf df)))
    with hC
  by_cases hc :
      (List.enumFrom 0 (chunksOf bs (prepareCustomersDf df))).all fun w => ok "customers" w.1
  · have hcA : A.all (fun w => ok w.1 w.2) = true := by
      rw [hA, tagWrites_all]
      exact hc
    have hcTW : A.takeWhile (fun w => ok w.1 w.2) = A :=
      List.takeWhile_eq_self_iff.mpr (List.all_eq_true.mp hcA)
    rw [if_pos hc]
    by_cases hp :
        (List.enumFrom 0 (chunksOf bs (prepareProductsDf df))).all fun w => ok "products" w.1
    · have hpB : B.all (fun w => ok w.1 w.2) = true := by
        rw [hB, tagWrites_all]
        exact hp
      have hpTW : B.takeWhile (fun w => ok w.1 w.2) = B :=
        List.takeWhile_eq_self_iff.mpr (List.all_eq_true.mp hpB)
      rw [if_pos hp]
      constructor
      · rw [hcTW, hpTW, List.append_assoc, List.append_assoc,
          takeWhile_append_of_all hcA, takeWhile_append_of_all hpB]
      · rw [List.all_append, List.all_append, hcA, hpB, hC, tagWrites_all]
        simp
    · have hpB : B.all (fun w => ok w.1 w.2) = false := by
        rw [hB, tagWrites_all]
        simpa using hp
      rw [if_neg hp]
      constructor
      · rw [hcTW, List.append_assoc, takeWhile_append_of_all hcA,
          takeWhile_append_of_not_all hpB]
      · rw [List.all_append, List.all_append, hpB]
        simp
  · have hcA : A.all (fun w => ok w.1 w.2) = false := by
      rw [hA, tagWrites_all]
      simpa using hc
    rw [if_neg hc]
    constructor
    · rw [List.append_assoc, takeWhile_append_of_not_all hcA]
    · rw [List.all_append, List.all_append, hcA]
      simp

/-- Claim C5, witness: the loading contract instantiated on a one-row
table with batch size 2 and an always-acknowledging store. -/
theorem c5_batch_loading_witness :
    0 < 2 ∧
    (chunkSpec 2 (prepareCustomersDf [prepRow scenarioRec]) ∧
     chunkSpec 2 (prepareProductsDf [prepRow scenarioRec]) ∧
     chunkSpec 2 (prepareTransactionsDf [prepRow scenarioRec]) ∧
     (load_with_batch_processing true (fun _ _ => true) [prepRow scenarioRec] 2).writes =
       (expectedWrites [prepRow scenarioRec] 2).takeWhile (fun _ => true) ∧
     (load_with_batch_processing true (fun _ _ => true) [prepRow scenarioRec] 2).success =
       (expectedWrites [prepRow scenarioRec] 2).all (fun _ => true)) :=
  ⟨by decide, c5_batch_loading [prepRow scenarioRec] 2 (fun _ _ => true) (by decide)⟩

end ETL
